import Mathlib

/-!
Shallow embedding of `src/clean_datasets.py` (OpenFlights dataset cleaner).

The script loads five delimited tables (routes, airports, airlines, and the
optional planes and countries), coerces key columns, samples routes with a
seeded generator, narrows the dependent tables to the keys used by the
sampled routes, optionally narrows by country consistency, derives the
planes subset from route equipment codes, sorts, and writes the outputs.

Modelling conventions:
- A raw cell of a key column is `RawCell`: `null` models a missing value
  (pandas `NaN`, produced by the `\x5cN` token), `num n` a numeric value,
  and `text s` a non-null value that is not parseable as a number
  (`astype(int)` raises on it, `pd.to_numeric(errors=coerce)` maps it to
  null).
- Tables are lists of rows (order = file order); pandas boolean-mask
  filtering is `List.filter`, `Series.isin` is an existential scan over the
  reference column, and `set(...)`-membership tests likewise.  pandas
  `isin` treats `NaN` as equal to `NaN`, which matches `Option` equality.
- `sort_values` is modelled by an insertion sort with the corresponding
  lexicographic key; missing values sort last (pandas `na_position` default).
- The process result is `Except String Output`: a raised exception is
  `Except.error`, and a completed run yields all output tables (file
  writing itself is out of scope, but all writes happen after every
  computation, so an error means no output is written).
-/

namespace CleanDatasets

open List (Perm Sublist Subperm)
open scoped List

/-- A raw cell of a key column after `pd.read_csv` with `na_values`:
missing, numeric, or non-null text not parseable as a number. -/
inductive RawCell where
  | null : RawCell
  | num : Int → RawCell
  | text : String → RawCell
deriving DecidableEq, Repr

def RawCell.isNull : RawCell → Bool
  | .null => true
  | _ => false

def RawCell.isNum : RawCell → Bool
  | .num _ => true
  | _ => false

def RawCell.isText : RawCell → Bool
  | .text _ => true
  | _ => false

/-- A raw row of routes.dat: columns Airline, AirlineID, SourceAirport,
SourceAirportID, DestAirport, DestAirportID, Codeshare, Stops, Equipment. -/
structure RouteRaw where
  airline : Option String
  airlineID : RawCell
  sourceAirport : Option String
  sourceAirportID : RawCell
  destAirport : Option String
  destAirportID : RawCell
  codeshare : Option String
  stops : Option String
  equipment : Option String
deriving DecidableEq, Repr

/-- A routes row after coercion: the three ID columns are integers. -/
structure Route where
  airline : Option String
  airlineID : Int
  sourceAirport : Option String
  sourceAirportID : Int
  destAirport : Option String
  destAirportID : Int
  codeshare : Option String
  stops : Option String
  equipment : Option String
deriving DecidableEq, Repr

/-- A raw row of airports.dat (14 columns; all but AirportID and Country
are opaque passthrough). -/
structure AirportRaw where
  airportID : RawCell
  name : Option String
  city : Option String
  country : Option String
  iata : Option String
  icao : Option String
  latitude : Option String
  longitude : Option String
  altitude : Option String
  timezone : Option String
  dst : Option String
  tzDatabase : Option String
  typ : Option String
  source : Option String
deriving DecidableEq, Repr

/-- An airports row after coercion of AirportID to integer. -/
structure Airport where
  airportID : Int
  name : Option String
  city : Option String
  country : Option String
  iata : Option String
  icao : Option String
  latitude : Option String
  longitude : Option String
  altitude : Option String
  timezone : Option String
  dst : Option String
  tzDatabase : Option String
  typ : Option String
  source : Option String
deriving DecidableEq, Repr

/-- A raw row of airlines.dat (8 columns). -/
structure AirlineRaw where
  airlineID : RawCell
  name : Option String
  aliasName : Option String
  iata : Option String
  icao : Option String
  callsign : Option String
  country : Option String
  active : Option String
deriving DecidableEq, Repr

/-- An airlines row after coercion of AirlineID to integer. -/
structure Airline where
  airlineID : Int
  name : Option String
  aliasName : Option String
  iata : Option String
  icao : Option String
  callsign : Option String
  country : Option String
  active : Option String
deriving DecidableEq, Repr

/-- A row of planes.dat: Name, IATA, ICAO. -/
structure Plane where
  name : Option String
  iata : Option String
  icao : Option String
deriving DecidableEq, Repr

/-- A row of countries.dat: Name, ISO2, FIPS. -/
structure Country where
  name : Option String
  iso2 : Option String
  fips : Option String
deriving DecidableEq, Repr

/-! ## Type coercion (script lines 80-85, 103-109) -/

/-- Conversion of a kept raw route row; `none` models the row being dropped
by `to_numeric(errors=coerce)` + `dropna` on AirlineID (only applied once
the Source/Dest astype guards have passed, so those are numeric). -/
def toRoute (r : RouteRaw) : Option Route :=
  match r.airlineID, r.sourceAirportID, r.destAirportID with
  | .num a, .num s, .num d =>
      some ⟨r.airline, a, r.sourceAirport, s, r.destAirport, d,
            r.codeshare, r.stops, r.equipment⟩
  | _, _, _ => none

/-- `routes.dropna(subset=[SourceAirportID, DestAirportID])` followed by
`astype(int)` on SourceAirportID and DestAirportID (raises ValueError on a
non-null non-numeric cell), then `to_numeric(errors=coerce)` + `dropna` +
`astype(int)` on AirlineID. -/
def routesClean (rows : List RouteRaw) : Except String (List Route) :=
  let kept := rows.filter fun r => !r.sourceAirportID.isNull && !r.destAirportID.isNull
  if kept.any fun r => r.sourceAirportID.isText then
    .error "ValueError: invalid literal for int() in SourceAirportID"
  else if kept.any fun r => r.destAirportID.isText then
    .error "ValueError: invalid literal for int() in DestAirportID"
  else
    .ok (kept.filterMap toRoute)

/-- Conversion of a kept raw airport row after the astype guard. -/
def toAirport (a : AirportRaw) : Option Airport :=
  match a.airportID with
  | .num i =>
      some ⟨i, a.name, a.city, a.country, a.iata, a.icao, a.latitude,
            a.longitude, a.altitude, a.timezone, a.dst, a.tzDatabase,
            a.typ, a.source⟩
  | _ => none

/-- `airports.dropna(subset=[AirportID])` then `astype(int)` on AirportID
(raises ValueError on a non-null non-numeric cell). -/
def airportsClean (rows : List AirportRaw) : Except String (List Airport) :=
  let kept := rows.filter fun a => !a.airportID.isNull
  if kept.any fun a => a.airportID.isText then
    .error "ValueError: invalid literal for int() in AirportID"
  else
    .ok (kept.filterMap toAirport)

/-- Conversion of a raw airline row; `none` models the row being dropped by
`dropna` / `to_numeric(errors=coerce)` / `dropna` on AirlineID. -/
def toAirline (a : AirlineRaw) : Option Airline :=
  match a.airlineID with
  | .num i =>
      some ⟨i, a.name, a.aliasName, a.iata, a.icao, a.callsign,
            a.country, a.active⟩
  | _ => none

/-- Airline coercion never raises: `to_numeric(errors=coerce)` silently
nullifies unparseable AirlineID values and `dropna` removes them. -/
def airlinesClean (rows : List AirlineRaw) : List Airline :=
  rows.filterMap toAirline

/-! ## Sampler (script lines 90-92): `routes_clean.sample(n=min(args.routes,
len(routes_clean)), random_state=args.seed)` — a seeded pseudorandom
selection without replacement, raising ValueError when the count is
negative. -/

/-- Linear congruential step standing for the seeded generator state. -/
def lcg (s : Nat) : Nat := (s * 1103515245 + 12345) % 2147483648

/-- Seeded selection without replacement: repeatedly pick a
generator-determined position and remove it. -/
def sampleAux {α : Type} (seed : Nat) : Nat → List α → List α
  | 0, _ => []
  | _ + 1, [] => []
  | k + 1, a :: as =>
    let l := a :: as
    let i := seed % l.length
    l.get ⟨i, Nat.mod_lt _ (Nat.succ_pos as.length)⟩ ::
      sampleAux (lcg seed) k (l.eraseIdx i)

/-- `sample_n = min(args.routes, len(routes_clean))` followed by
`DataFrame.sample(n=sample_n, random_state=seed)`, which raises ValueError
for a negative count. -/
def sampleRoutesExc (cleaned : List Route) (n : Int) (seed : Nat) :
    Except String (List Route) :=
  let k : Int := min n (cleaned.length : Int)
  if k < 0 then
    .error "ValueError: A negative number of rows requested. Please provide n >= 0."
  else
    .ok (sampleAux seed k.toNat cleaned)

/-! ## Used-key predicates (`isin` against id sets, script lines 96-97,
111-112, 116-117) -/

/-- `airport_ids = set(routes[SourceAirportID]) | set(routes[DestAirportID])`
membership. -/
def usesAirportId (srs : List Route) (i : Int) : Bool :=
  srs.any fun r => r.sourceAirportID == i || r.destAirportID == i

/-- `airline_ids = set(routes[AirlineID])` membership. -/
def usesAirlineId (srs : List Route) (i : Int) : Bool :=
  srs.any fun r => r.airlineID == i

/-- `i in set(airports[AirportID])` for a narrowed airports table. -/
def hasAirportRow (l : List Airport) (i : Int) : Bool :=
  l.any fun a => a.airportID == i

/-- `i in set(airlines[AirlineID])` for a narrowed airlines table. -/
def hasAirlineRow (l : List Airline) (i : Int) : Bool :=
  l.any fun a => a.airlineID == i

/-! ## Referential narrowing (script lines 111-137) -/

/-- `airports_small = airports[airports[AirportID].isin(airport_ids)]`
(line 111). -/
def airportsSmall1 (sample : List Route) (apC : List Airport) : List Airport :=
  apC.filter fun a => usesAirportId sample a.airportID

/-- `airlines_small = airlines[airlines[AirlineID].isin(airline_ids)]`
(line 112). -/
def airlinesSmall1 (sample : List Route) (alC : List Airline) : List Airline :=
  alC.filter fun a => usesAirlineId sample a.airlineID

/-- Lines 116, 119-122: `missing_airlines = airline_ids -
set(airlines_small[AirlineID])`; when non-empty, keep only sampled routes
whose AirlineID is in the narrowed airlines table. -/
def sampleNarrowAirline (sample : List Route) (alC : List Airline) : List Route :=
  if sample.any fun r => !hasAirlineRow (airlinesSmall1 sample alC) r.airlineID then
    sample.filter fun r => hasAirlineRow (airlinesSmall1 sample alC) r.airlineID
  else sample

/-- Lines 117, 124-130: `missing_airports` is computed from the original
sample's used ids against the narrowed airports table; when non-empty, keep
only routes (already airline-filtered) whose source and destination ids are
in the narrowed airports table. -/
def sampleNarrow (sample : List Route) (apC : List Airport) (alC : List Airline) :
    List Route :=
  if sample.any fun r => !hasAirportRow (airportsSmall1 sample apC) r.sourceAirportID ||
      !hasAirportRow (airportsSmall1 sample apC) r.destAirportID then
    (sampleNarrowAirline sample alC).filter fun r =>
      hasAirportRow (airportsSmall1 sample apC) r.sourceAirportID &&
      hasAirportRow (airportsSmall1 sample apC) r.destAirportID
  else sampleNarrowAirline sample alC

/-- Line 136: tighten airports to the final used ids of the narrowed
sample. -/
def airportsSmall2 (sample : List Route) (apC : List Airport) (alC : List Airline) :
    List Airport :=
  apC.filter fun a => usesAirportId (sampleNarrow sample apC alC) a.airportID

/-- Line 137: tighten airlines to the final used ids of the narrowed
sample. -/
def airlinesSmall2 (sample : List Route) (apC : List Airport) (alC : List Airline) :
    List Airline :=
  alC.filter fun a => usesAirlineId (sampleNarrow sample apC alC) a.airlineID

/-! ## Sorting (`sort_values`, script lines 157, 177, 190, 198-202) -/

/-- Comparison of nullable string cells with missing values last
(`na_position` default of `sort_values`). -/
def cmpOptStr : Option String → Option String → Ordering
  | none, none => .eq
  | none, some _ => .gt
  | some _, none => .lt
  | some a, some b => compare a b

/-- Insert into a le-sorted list. -/
def insertRow {α : Type} (le : α → α → Bool) (a : α) : List α → List α
  | [] => [a]
  | b :: bs => if le a b then a :: b :: bs else b :: insertRow le a bs

/-- Deterministic comparison sort modelling `sort_values`. -/
def sortRows {α : Type} (le : α → α → Bool) (l : List α) : List α :=
  l.foldr (insertRow le) []

/-- Route sort key (line 198): AirlineID, SourceAirportID, DestAirportID,
Airline, SourceAirport, DestAirport. -/
def routeLE (r s : Route) : Bool :=
  ((compare r.airlineID s.airlineID).then
    ((compare r.sourceAirportID s.sourceAirportID).then
      ((compare r.destAirportID s.destAirportID).then
        ((cmpOptStr r.airline s.airline).then
          ((cmpOptStr r.sourceAirport s.sourceAirport).then
            (cmpOptStr r.destAirport s.destAirport)))))).isLE

/-- Airport sort key (line 201): AirportID. -/
def airportLE (a b : Airport) : Bool := (compare a.airportID b.airportID).isLE

/-- Airline sort key (line 202): AirlineID. -/
def airlineLE (a b : Airline) : Bool := (compare a.airlineID b.airlineID).isLE

/-- Plane sort key (line 190): IATA, ICAO, Name. -/
def planeLE (p q : Plane) : Bool :=
  ((cmpOptStr p.iata q.iata).then
    ((cmpOptStr p.icao q.icao).then (cmpOptStr p.name q.name))).isLE

/-- Country sort key (lines 157, 177): Name. -/
def countryLE (c d : Country) : Bool := (cmpOptStr c.name d.name).isLE

/-! ## Country derivation and re-narrowing (script lines 148-177) -/

/-- Lines 150-153: `used_countries` = union of the non-null Country values
of the narrowed airports/airlines; `countries_small =
countries[countries[Name].isin(used_countries)]`.  A null country name is
never in `used_countries` (both unions use `dropna`). -/
def countriesNarrow (cs : List Country) (apS : List Airport) (alS : List Airline) :
    List Country :=
  cs.filter fun c => c.name.isSome &&
    ((apS.any fun a => a.country == c.name) || (alS.any fun l => l.country == c.name))

/-- Line 157: `countries_small_out = countries_small.sort_values(by=[Name])`. -/
def countriesSmallOut (cs : List Country) (apS : List Airport) (alS : List Airline) :
    List Country :=
  sortRows countryLE (countriesNarrow cs apS alS)

/-- Line 159: membership in `valid_country_names =
set(countries_small_out[Name])`, tested with `isin` (which matches null to
null, though no null name survives `countriesNarrow`). -/
def validCountryB (cs : List Country) (apS : List Airport) (alS : List Airline)
    (o : Option String) : Bool :=
  (countriesSmallOut cs apS alS).any fun c => c.name == o

/-- Line 160: restrict narrowed airports to valid country names. -/
def airports3 (cs : List Country) (apS : List Airport) (alS : List Airline) :
    List Airport :=
  apS.filter fun a => validCountryB cs apS alS a.country

/-- Line 161: restrict narrowed airlines to valid country names. -/
def airlines3 (cs : List Country) (apS : List Airport) (alS : List Airline) :
    List Airline :=
  alS.filter fun a => validCountryB cs apS alS a.country

/-- Lines 163-169: drop sampled routes whose airports/airline fell out of
the country-restricted tables. -/
def sampleCountry (cs : List Country) (s3 : List Route)
    (apS : List Airport) (alS : List Airline) : List Route :=
  s3.filter fun r =>
    hasAirportRow (airports3 cs apS alS) r.sourceAirportID &&
    hasAirportRow (airports3 cs apS alS) r.destAirportID &&
    hasAirlineRow (airlines3 cs apS alS) r.airlineID

/-- Line 173: re-tighten airports from the full coerced table to the final
used ids, intersected with valid country names. -/
def airports4 (cs : List Country) (s3 : List Route)
    (apS : List Airport) (alS : List Airline) (apC : List Airport) : List Airport :=
  apC.filter fun a =>
    usesAirportId (sampleCountry cs s3 apS alS) a.airportID &&
    validCountryB cs apS alS a.country

/-- Line 174: re-tighten airlines likewise. -/
def airlines4 (cs : List Country) (s3 : List Route)
    (apS : List Airport) (alS : List Airline) (alC : List Airline) : List Airline :=
  alC.filter fun a =>
    usesAirlineId (sampleCountry cs s3 apS alS) a.airlineID &&
    validCountryB cs apS alS a.country

/-- Lines 176-177: recompute `countries_small_out` from the final
airports/airlines (non-null country values) and sort by Name. -/
def countriesOutFinal (cs : List Country) (s3 : List Route)
    (apS : List Airport) (alS : List Airline)
    (apC : List Airport) (alC : List Airline) : List Country :=
  sortRows countryLE (cs.filter fun c => c.name.isSome &&
    (((airports4 cs s3 apS alS apC).any fun a => a.country == c.name) ||
     ((airlines4 cs s3 apS alS alC).any fun l => l.country == c.name)))

/-! ## Plane derivation (script lines 180-191) -/

/-- One Equipment cell: whitespace split discarding empty chunks (Python
`str.split()` semantics after `explode` + `dropna`), then strip and
upper-case each token. -/
def tokenize (s : String) : List String :=
  ((s.split fun c => c.isWhitespace).filter fun t => t ≠ "").map fun t =>
    t.trim.toUpper

/-- The equipment tokens contributed by one route row (none when the
Equipment cell is null, matching `dropna`). -/
def equipOf (r : Route) : List String :=
  match r.equipment with
  | some s => tokenize s
  | none => []

/-- Lines 182-186: the equipment code tokens of the non-null Equipment
cells of the final sampled routes. -/
def equipTokens (srs : List Route) : List String :=
  srs.flatMap equipOf

/-- `isin` of a nullable code column against the token set: a null code is
never a member. -/
def optMemTokens (o : Option String) (toks : List String) : Bool :=
  match o with
  | some s => toks.contains s
  | none => false

/-- Lines 187-189: planes whose IATA or ICAO code is in the equipment token
set. -/
def planesNarrow (ps : List Plane) (srs : List Route) : List Plane :=
  ps.filter fun p =>
    optMemTokens p.iata (equipTokens srs) || optMemTokens p.icao (equipTokens srs)

/-! ## The whole run (script lines 78-212) -/

/-- The tables a completed run writes: the three required outputs plus the
optional planes/countries outputs (present exactly when written). -/
structure Output where
  routes : List Route
  airports : List Airport
  airlines : List Airline
  planes : Option (List Plane)
  countries : Option (List Country)
deriving DecidableEq, Repr

/-- The output tuple of a run with no countries table: the narrowed sample
and the tightened airports/airlines (lines 132-137), sorted (lines
198-202); no optional table is written. -/
def runNoCountries (sample : List Route) (apC : List Airport) (alC : List Airline) :
    Output :=
  ⟨sortRows routeLE (sampleNarrow sample apC alC),
   sortRows airportLE (airportsSmall2 sample apC alC),
   sortRows airlineLE (airlinesSmall2 sample apC alC),
   none, none⟩

/-- The output tuple of a run with a countries table (lines 148-202): after
the country re-narrowing, planes (when supplied) are derived from the final
route sample, and the countries output is the re-derived final set. -/
def runWithCountries (cs : List Country) (pl : Option (List Plane))
    (sample : List Route) (apC : List Airport) (alC : List Airline) : Output :=
  ⟨sortRows routeLE
     (sampleCountry cs (sampleNarrow sample apC alC)
       (airportsSmall2 sample apC alC) (airlinesSmall2 sample apC alC)),
   sortRows airportLE
     (airports4 cs (sampleNarrow sample apC alC)
       (airportsSmall2 sample apC alC) (airlinesSmall2 sample apC alC) apC),
   sortRows airlineLE
     (airlines4 cs (sampleNarrow sample apC alC)
       (airportsSmall2 sample apC alC) (airlinesSmall2 sample apC alC) alC),
   pl.map fun ps =>
     sortRows planeLE (planesNarrow ps
       (sampleCountry cs (sampleNarrow sample apC alC)
         (airportsSmall2 sample apC alC) (airlinesSmall2 sample apC alC))),
   some (countriesOutFinal cs (sampleNarrow sample apC alC)
     (airportsSmall2 sample apC alC) (airlinesSmall2 sample apC alC) apC alC)⟩

/-- The full pipeline on parsed tables: coercion, sampling, referential
narrowing, the optional country pass, the optional plane derivation, and
the deterministic output sort.  `Except.error` models an uncaught Python
exception (which aborts before any output file is written, since all
`to_csv` calls are at the end).  Note line 192: when planes are supplied
but countries are not, the summary print evaluates
`len(countries_small_out)` on `None` and raises TypeError. -/
def run (routesRaw : List RouteRaw) (airportsRaw : List AirportRaw)
    (airlinesRaw : List AirlineRaw) (planes : Option (List Plane))
    (countries : Option (List Country)) (nRoutes : Int) (seed : Nat) :
    Except String Output :=
  (routesClean routesRaw).bind fun cleaned =>
    (sampleRoutesExc cleaned nRoutes seed).bind fun sample =>
      (airportsClean airportsRaw).bind fun apC =>
        match countries with
        | some cs =>
          .ok (runWithCountries cs planes sample apC (airlinesClean airlinesRaw))
        | none =>
          match planes with
          | some _ => .error "TypeError: object of type NoneType has no len()"
          | none => .ok (runNoCountries sample apC (airlinesClean airlinesRaw))

/-! ## General lemmas about the sort, the sampler, and the filters -/

theorem perm_insertRow {α : Type} (le : α → α → Bool) (a : α) (l : List α) :
    insertRow le a l ~ a :: l := by
  induction l with
  | nil => rfl
  | cons b bs ih =>
    simp only [insertRow]
    split
    · rfl
    · exact (ih.cons b).trans (List.Perm.swap a b bs)

theorem perm_sortRows {α : Type} (le : α → α → Bool) (l : List α) :
    sortRows le l ~ l := by
  induction l with
  | nil => rfl
  | cons a as ih =>
    exact (perm_insertRow le a (sortRows le as)).trans (ih.cons a)

theorem mem_sortRows {α : Type} (le : α → α → Bool) (a : α) (l : List α) :
    a ∈ sortRows le l ↔ a ∈ l :=
  (perm_sortRows le l).mem_iff

theorem length_sortRows {α : Type} (le : α → α → Bool) (l : List α) :
    (sortRows le l).length = l.length :=
  (perm_sortRows le l).length_eq

theorem sampleAux_length {α : Type} (seed k : Nat) (l : List α) :
    (sampleAux seed k l).length = min k l.length := by
  induction k generalizing seed l with
  | zero => simp [sampleAux]
  | succ k ih =>
    match l with
    | [] => simp [sampleAux]
    | a :: as =>
      have hi : seed % (as.length + 1) < (a :: as).length :=
        Nat.mod_lt _ (Nat.succ_pos as.length)
      simp only [sampleAux, List.length_cons, ih]
      rw [List.length_eraseIdx_of_lt hi]
      simp only [List.length_cons]
      omega

theorem cons_subperm_cons {α : Type} (a : α) {l₁ l₂ : List α} (h : l₁ <+~ l₂) :
    a :: l₁ <+~ a :: l₂ := by
  obtain ⟨u, hp, hs⟩ := h
  exact ⟨a :: u, hp.cons a, hs.cons₂ a⟩

theorem perm_get_cons_eraseIdx {α : Type} (l : List α) (i : Nat) (h : i < l.length) :
    l.get ⟨i, h⟩ :: l.eraseIdx i ~ l := by
  have hdrop : l.get ⟨i, h⟩ :: l.drop (i + 1) = l.drop i := by
    rw [List.get_eq_getElem]
    exact List.getElem_cons_drop l i h
  calc l.get ⟨i, h⟩ :: l.eraseIdx i
      = l.get ⟨i, h⟩ :: (l.take i ++ l.drop (i + 1)) := by
        rw [List.eraseIdx_eq_take_drop_succ]
    _ ~ l.take i ++ l.get ⟨i, h⟩ :: l.drop (i + 1) := List.perm_middle.symm
    _ = l.take i ++ l.drop i := by rw [hdrop]
    _ = l := List.take_append_drop i l

theorem sampleAux_subperm {α : Type} (seed k : Nat) (l : List α) :
    sampleAux seed k l <+~ l := by
  induction k generalizing seed l with
  | zero => exact List.nil_subperm
  | succ k ih =>
    match l with
    | [] => exact List.nil_subperm
    | a :: as =>
      simp only [sampleAux]
      exact (cons_subperm_cons _ (ih (lcg seed) _)).trans
        (perm_get_cons_eraseIdx (a :: as) _ _).subperm

/-! ### Membership characterizations of the Boolean scans -/

theorem hasAirportRow_iff {l : List Airport} {i : Int} :
    hasAirportRow l i = true ↔ ∃ a ∈ l, a.airportID = i := by
  simp [hasAirportRow, List.any_eq_true]

theorem hasAirlineRow_iff {l : List Airline} {i : Int} :
    hasAirlineRow l i = true ↔ ∃ a ∈ l, a.airlineID = i := by
  simp [hasAirlineRow, List.any_eq_true]

theorem usesAirportId_iff {srs : List Route} {i : Int} :
    usesAirportId srs i = true ↔
      ∃ r ∈ srs, r.sourceAirportID = i ∨ r.destAirportID = i := by
  simp [usesAirportId, List.any_eq_true]

theorem usesAirlineId_iff {srs : List Route} {i : Int} :
    usesAirlineId srs i = true ↔ ∃ r ∈ srs, r.airlineID = i := by
  simp [usesAirlineId, List.any_eq_true]

theorem usesAirportId_mono {s s' : List Route} {i : Int}
    (hsub : ∀ r ∈ s', r ∈ s) (h : usesAirportId s' i = true) :
    usesAirportId s i = true := by
  rw [usesAirportId_iff] at h ⊢
  obtain ⟨r, hr, hor⟩ := h
  exact ⟨r, hsub r hr, hor⟩

theorem usesAirlineId_mono {s s' : List Route} {i : Int}
    (hsub : ∀ r ∈ s', r ∈ s) (h : usesAirlineId s' i = true) :
    usesAirlineId s i = true := by
  rw [usesAirlineId_iff] at h ⊢
  obtain ⟨r, hr, he⟩ := h
  exact ⟨r, hsub r hr, he⟩

theorem hasAirportRow_of_filter {p : Airport → Bool} {l : List Airport} {i : Int}
    (h : hasAirportRow (l.filter p) i = true) : hasAirportRow l i = true := by
  rw [hasAirportRow_iff] at h ⊢
  obtain ⟨a, ha, he⟩ := h
  exact ⟨a, (List.mem_filter.mp ha).1, he⟩

theorem hasAirlineRow_of_filter {p : Airline → Bool} {l : List Airline} {i : Int}
    (h : hasAirlineRow (l.filter p) i = true) : hasAirlineRow l i = true := by
  rw [hasAirlineRow_iff] at h ⊢
  obtain ⟨a, ha, he⟩ := h
  exact ⟨a, (List.mem_filter.mp ha).1, he⟩

/-! ### Structure of the referential narrowing -/

theorem sampleNarrowAirline_sublist (s : List Route) (alC : List Airline) :
    sampleNarrowAirline s alC <+ s := by
  unfold sampleNarrowAirline
  split
  · exact List.filter_sublist s
  · exact List.Sublist.refl s

theorem sampleNarrow_sublist (s : List Route) (apC : List Airport) (alC : List Airline) :
    sampleNarrow s apC alC <+ s := by
  unfold sampleNarrow
  split
  · exact (List.filter_sublist _).trans (sampleNarrowAirline_sublist s alC)
  · exact sampleNarrowAirline_sublist s alC

theorem sampleNarrowAirline_resolves (s : List Route) (alC : List Airline) :
    ∀ r ∈ sampleNarrowAirline s alC,
      hasAirlineRow (airlinesSmall1 s alC) r.airlineID = true := by
  intro r hr
  unfold sampleNarrowAirline at hr
  split at hr
  · exact (List.mem_filter.mp hr).2
  · rename_i hcond
    by_contra hfalse
    exact hcond (List.any_eq_true.mpr ⟨r, hr, by simp [hfalse]⟩)

theorem sampleNarrow_resolves (s : List Route) (apC : List Airport) (alC : List Airline) :
    ∀ r ∈ sampleNarrow s apC alC,
      hasAirportRow apC r.sourceAirportID = true ∧
      hasAirportRow apC r.destAirportID = true ∧
      hasAirlineRow alC r.airlineID = true := by
  intro r hr
  have hsubA : r ∈ sampleNarrowAirline s alC := by
    unfold sampleNarrow at hr
    split at hr
    · exact (List.mem_filter.mp hr).1
    · exact hr
  have hair : hasAirlineRow alC r.airlineID = true :=
    hasAirlineRow_of_filter (sampleNarrowAirline_resolves s alC r hsubA)
  have hap : hasAirportRow (airportsSmall1 s apC) r.sourceAirportID = true ∧
      hasAirportRow (airportsSmall1 s apC) r.destAirportID = true := by
    unfold sampleNarrow at hr
    split at hr
    · have := (List.mem_filter.mp hr).2
      exact ⟨by simpa using (Bool.and_eq_true _ _ |>.mp this).1,
             by simpa using (Bool.and_eq_true _ _ |>.mp this).2⟩
    · rename_i hcond
      have hrs : r ∈ s := (sampleNarrowAirline_sublist s alC).mem hsubA
      constructor
      · by_contra hfalse
        exact hcond (List.any_eq_true.mpr ⟨r, hrs, by simp [hfalse]⟩)
      · by_contra hfalse
        exact hcond (List.any_eq_true.mpr ⟨r, hrs, by simp [hfalse]⟩)
  exact ⟨hasAirportRow_of_filter hap.1, hasAirportRow_of_filter hap.2, hair⟩

/-! ### Inversion of a completed run -/

theorem except_bind_ok {α β : Type} (a : α) (f : α → Except String β) :
    (Except.ok a : Except String α).bind f = f a := rfl

theorem except_bind_error {α β : Type} (e : String) (f : α → Except String β) :
    (Except.error e : Except String α).bind f = Except.error e := rfl

theorem run_ok_none {rr : List RouteRaw} {ar : List AirportRaw} {lr : List AirlineRaw}
    {pl : Option (List Plane)} {n : Int} {seed : Nat} {out : Output}
    (h : run rr ar lr pl none n seed = .ok out) :
    pl = none ∧ ∃ cleaned sample apC,
      routesClean rr = .ok cleaned ∧
      sampleRoutesExc cleaned n seed = .ok sample ∧
      airportsClean ar = .ok apC ∧
      out = runNoCountries sample apC (airlinesClean lr) := by
  unfold run at h
  cases hrc : routesClean rr with
  | error e => simp only [hrc, except_bind_error] at h; exact nomatch h
  | ok cleaned =>
    simp only [hrc, except_bind_ok] at h
    cases hs : sampleRoutesExc cleaned n seed with
    | error e => simp only [hs, except_bind_error] at h; exact nomatch h
    | ok sample =>
      simp only [hs, except_bind_ok] at h
      cases hac : airportsClean ar with
      | error e => simp only [hac, except_bind_error] at h; exact nomatch h
      | ok apC =>
        simp only [hac, except_bind_ok] at h
        cases pl with
        | some ps => exact nomatch h
        | none =>
          exact ⟨rfl, cleaned, sample, apC, rfl, hs, rfl, (Except.ok.inj h).symm⟩

theorem run_ok_some {rr : List RouteRaw} {ar : List AirportRaw} {lr : List AirlineRaw}
    {pl : Option (List Plane)} {cs : List Country} {n : Int} {seed : Nat} {out : Output}
    (h : run rr ar lr pl (some cs) n seed = .ok out) :
    ∃ cleaned sample apC,
      routesClean rr = .ok cleaned ∧
      sampleRoutesExc cleaned n seed = .ok sample ∧
      airportsClean ar = .ok apC ∧
      out = runWithCountries cs pl sample apC (airlinesClean lr) := by
  unfold run at h
  cases hrc : routesClean rr with
  | error e => simp only [hrc, except_bind_error] at h; exact nomatch h
  | ok cleaned =>
    simp only [hrc, except_bind_ok] at h
    cases hs : sampleRoutesExc cleaned n seed with
    | error e => simp only [hs, except_bind_error] at h; exact nomatch h
    | ok sample =>
      simp only [hs, except_bind_ok] at h
      cases hac : airportsClean ar with
      | error e => simp only [hac, except_bind_error] at h; exact nomatch h
      | ok apC =>
        simp only [hac, except_bind_ok] at h
        exact ⟨cleaned, sample, apC, rfl, hs, rfl, (Except.ok.inj h).symm⟩

/-! ### Membership in the narrowed tables -/

theorem mem_airportsSmall2 {sample : List Route} {apC : List Airport}
    {alC : List Airline} {a : Airport} :
    a ∈ airportsSmall2 sample apC alC ↔
      a ∈ apC ∧ usesAirportId (sampleNarrow sample apC alC) a.airportID = true := by
  simp [airportsSmall2, List.mem_filter]

theorem mem_airlinesSmall2 {sample : List Route} {apC : List Airport}
    {alC : List Airline} {a : Airline} :
    a ∈ airlinesSmall2 sample apC alC ↔
      a ∈ alC ∧ usesAirlineId (sampleNarrow sample apC alC) a.airlineID = true := by
  simp [airlinesSmall2, List.mem_filter]

theorem mem_airports3 {cs : List Country} {apS : List Airport} {alS : List Airline}
    {a : Airport} :
    a ∈ airports3 cs apS alS ↔ a ∈ apS ∧ validCountryB cs apS alS a.country = true := by
  simp [airports3, List.mem_filter]

theorem mem_airlines3 {cs : List Country} {apS : List Airport} {alS : List Airline}
    {a : Airline} :
    a ∈ airlines3 cs apS alS ↔ a ∈ alS ∧ validCountryB cs apS alS a.country = true := by
  simp [airlines3, List.mem_filter]

theorem mem_sampleCountry {cs : List Country} {s3 : List Route} {apS : List Airport}
    {alS : List Airline} {r : Route} :
    r ∈ sampleCountry cs s3 apS alS ↔
      r ∈ s3 ∧ hasAirportRow (airports3 cs apS alS) r.sourceAirportID = true ∧
        hasAirportRow (airports3 cs apS alS) r.destAirportID = true ∧
        hasAirlineRow (airlines3 cs apS alS) r.airlineID = true := by
  simp [sampleCountry, List.mem_filter, and_assoc]

theorem mem_airports4 {cs : List Country} {s3 : List Route} {apS : List Airport}
    {alS : List Airline} {apC : List Airport} {a : Airport} :
    a ∈ airports4 cs s3 apS alS apC ↔
      a ∈ apC ∧ usesAirportId (sampleCountry cs s3 apS alS) a.airportID = true ∧
        validCountryB cs apS alS a.country = true := by
  simp [airports4, List.mem_filter, and_assoc]

theorem mem_airlines4 {cs : List Country} {s3 : List Route} {apS : List Airport}
    {alS : List Airline} {alC : List Airline} {a : Airline} :
    a ∈ airlines4 cs s3 apS alS alC ↔
      a ∈ alC ∧ usesAirlineId (sampleCountry cs s3 apS alS) a.airlineID = true ∧
        validCountryB cs apS alS a.country = true := by
  simp [airlines4, List.mem_filter, and_assoc]

theorem mem_countriesNarrow {cs : List Country} {apS : List Airport}
    {alS : List Airline} {c : Country} :
    c ∈ countriesNarrow cs apS alS ↔
      c ∈ cs ∧ c.name.isSome = true ∧
        ((∃ a ∈ apS, a.country = c.name) ∨ (∃ l ∈ alS, l.country = c.name)) := by
  simp [countriesNarrow, List.mem_filter, List.any_eq_true, and_assoc]

theorem validCountryB_iff {cs : List Country} {apS : List Airport}
    {alS : List Airline} {o : Option String} :
    validCountryB cs apS alS o = true ↔ ∃ c ∈ countriesNarrow cs apS alS, c.name = o := by
  simp [validCountryB, countriesSmallOut, List.any_eq_true, mem_sortRows]

theorem mem_countriesOutFinal {cs : List Country} {s3 : List Route} {apS : List Airport}
    {alS : List Airline} {apC : List Airport} {alC : List Airline} {c : Country} :
    c ∈ countriesOutFinal cs s3 apS alS apC alC ↔
      c ∈ cs ∧ c.name.isSome = true ∧
        ((∃ a ∈ airports4 cs s3 apS alS apC, a.country = c.name) ∨
         (∃ l ∈ airlines4 cs s3 apS alS alC, l.country = c.name)) := by
  simp [countriesOutFinal, mem_sortRows, List.mem_filter, List.any_eq_true, and_assoc]

theorem mem_equipOf {r : Route} {t : String} :
    t ∈ equipOf r ↔ ∃ s, r.equipment = some s ∧ t ∈ tokenize s := by
  cases hr : r.equipment <;> simp [equipOf, hr]

theorem mem_equipTokens {srs : List Route} {t : String} :
    t ∈ equipTokens srs ↔ ∃ r ∈ srs, ∃ s, r.equipment = some s ∧ t ∈ tokenize s := by
  simp only [equipTokens, List.mem_flatMap, mem_equipOf]

theorem optMemTokens_iff {o : Option String} {toks : List String} :
    optMemTokens o toks = true ↔ ∃ s, o = some s ∧ s ∈ toks := by
  cases o <;> simp [optMemTokens]

theorem mem_planesNarrow {ps : List Plane} {srs : List Route} {p : Plane} :
    p ∈ planesNarrow ps srs ↔
      p ∈ ps ∧ ((∃ s, p.iata = some s ∧ s ∈ equipTokens srs) ∨
                (∃ s, p.icao = some s ∧ s ∈ equipTokens srs)) := by
  simp [planesNarrow, List.mem_filter, optMemTokens_iff]

/-! ### Closure of the narrowed outputs -/

theorem closure_noCountries_airline (sample : List Route) (apC : List Airport)
    (alC : List Airline) (i : Int) :
    (∃ r ∈ sampleNarrow sample apC alC, r.airlineID = i) ↔
      (∃ a ∈ airlinesSmall2 sample apC alC, a.airlineID = i) := by
  constructor
  · rintro ⟨r, hr, rfl⟩
    obtain ⟨-, -, hal⟩ := sampleNarrow_resolves sample apC alC r hr
    obtain ⟨a, ha, hae⟩ := hasAirlineRow_iff.mp hal
    exact ⟨a, mem_airlinesSmall2.mpr ⟨ha, usesAirlineId_iff.mpr ⟨r, hr, hae.symm⟩⟩, hae⟩
  · rintro ⟨a, ha, rfl⟩
    obtain ⟨-, hused⟩ := mem_airlinesSmall2.mp ha
    obtain ⟨r, hr, hre⟩ := usesAirlineId_iff.mp hused
    exact ⟨r, hr, hre⟩

theorem closure_noCountries_airport (sample : List Route) (apC : List Airport)
    (alC : List Airline) (i : Int) :
    (∃ r ∈ sampleNarrow sample apC alC, r.sourceAirportID = i ∨ r.destAirportID = i) ↔
      (∃ a ∈ airportsSmall2 sample apC alC, a.airportID = i) := by
  constructor
  · rintro ⟨r, hr, hor⟩
    obtain ⟨hsrc, hdst, -⟩ := sampleNarrow_resolves sample apC alC r hr
    cases hor with
    | inl hsi =>
      obtain ⟨a, ha, hae⟩ := hasAirportRow_iff.mp hsrc
      refine ⟨a, mem_airportsSmall2.mpr ⟨ha, usesAirportId_iff.mpr ⟨r, hr, ?_⟩⟩, by omega⟩
      left; omega
    | inr hdi =>
      obtain ⟨a, ha, hae⟩ := hasAirportRow_iff.mp hdst
      refine ⟨a, mem_airportsSmall2.mpr ⟨ha, usesAirportId_iff.mpr ⟨r, hr, ?_⟩⟩, by omega⟩
      right; omega
  · rintro ⟨a, ha, rfl⟩
    obtain ⟨-, hused⟩ := mem_airportsSmall2.mp ha
    exact usesAirportId_iff.mp hused

theorem closure_withCountries_airline (cs : List Country) (s3 : List Route)
    (apS : List Airport) (alS : List Airline) (alC : List Airline)
    (hS : ∀ a ∈ alS, a ∈ alC) (i : Int) :
    (∃ r ∈ sampleCountry cs s3 apS alS, r.airlineID = i) ↔
      (∃ a ∈ airlines4 cs s3 apS alS alC, a.airlineID = i) := by
  constructor
  · rintro ⟨r, hr, rfl⟩
    obtain ⟨-, -, -, hal⟩ := mem_sampleCountry.mp hr
    obtain ⟨a, ha, hae⟩ := hasAirlineRow_iff.mp hal
    obtain ⟨haS, hvalid⟩ := mem_airlines3.mp ha
    exact ⟨a, mem_airlines4.mpr
      ⟨hS a haS, usesAirlineId_iff.mpr ⟨r, hr, hae.symm⟩, hvalid⟩, hae⟩
  · rintro ⟨a, ha, rfl⟩
    obtain ⟨-, hused, -⟩ := mem_airlines4.mp ha
    exact usesAirlineId_iff.mp hused

theorem closure_withCountries_airport (cs : List Country) (s3 : List Route)
    (apS : List Airport) (alS : List Airline) (apC : List Airport)
    (hS : ∀ a ∈ apS, a ∈ apC) (i : Int) :
    (∃ r ∈ sampleCountry cs s3 apS alS, r.sourceAirportID = i ∨ r.destAirportID = i) ↔
      (∃ a ∈ airports4 cs s3 apS alS apC, a.airportID = i) := by
  constructor
  · rintro ⟨r, hr, hor⟩
    obtain ⟨-, hsrc, hdst, -⟩ := mem_sampleCountry.mp hr
    cases hor with
    | inl hsi =>
      obtain ⟨a, ha, hae⟩ := hasAirportRow_iff.mp hsrc
      obtain ⟨haS, hvalid⟩ := mem_airports3.mp ha
      refine ⟨a, mem_airports4.mpr
        ⟨hS a haS, usesAirportId_iff.mpr ⟨r, hr, ?_⟩, hvalid⟩, by omega⟩
      left; omega
    | inr hdi =>
      obtain ⟨a, ha, hae⟩ := hasAirportRow_iff.mp hdst
      obtain ⟨haS, hvalid⟩ := mem_airports3.mp ha
      refine ⟨a, mem_airports4.mpr
        ⟨hS a haS, usesAirportId_iff.mpr ⟨r, hr, ?_⟩, hvalid⟩, by omega⟩
      right; omega
  · rintro ⟨a, ha, rfl⟩
    obtain ⟨-, hused, -⟩ := mem_airports4.mp ha
    exact usesAirportId_iff.mp hused

/-! ### Country-pass facts -/

theorem airports4_country_final (cs : List Country) (s3 : List Route)
    (apS : List Airport) (alS : List Airline) (apC : List Airport) (alC : List Airline) :
    ∀ a ∈ airports4 cs s3 apS alS apC,
      ∃ c ∈ countriesOutFinal cs s3 apS alS apC alC, c.name = a.country := by
  intro a ha
  obtain ⟨-, -, hvalid⟩ := mem_airports4.mp ha
  obtain ⟨c, hc, hce⟩ := validCountryB_iff.mp hvalid
  obtain ⟨hccs, hcsome, -⟩ := mem_countriesNarrow.mp hc
  exact ⟨c, mem_countriesOutFinal.mpr ⟨hccs, hcsome, Or.inl ⟨a, ha, hce.symm⟩⟩, hce⟩

theorem airlines4_country_final (cs : List Country) (s3 : List Route)
    (apS : List Airport) (alS : List Airline) (apC : List Airport) (alC : List Airline) :
    ∀ a ∈ airlines4 cs s3 apS alS alC,
      ∃ c ∈ countriesOutFinal cs s3 apS alS apC alC, c.name = a.country := by
  intro a ha
  obtain ⟨-, -, hvalid⟩ := mem_airlines4.mp ha
  obtain ⟨c, hc, hce⟩ := validCountryB_iff.mp hvalid
  obtain ⟨hccs, hcsome, -⟩ := mem_countriesNarrow.mp hc
  exact ⟨c, mem_countriesOutFinal.mpr ⟨hccs, hcsome, Or.inr ⟨a, ha, hce.symm⟩⟩, hce⟩

theorem sampleCountry_resolves (cs : List Country) (s3 : List Route)
    (apS : List Airport) (alS : List Airline) :
    ∀ r ∈ sampleCountry cs s3 apS alS,
      (∃ a ∈ airports3 cs apS alS, a.airportID = r.sourceAirportID) ∧
      (∃ a ∈ airports3 cs apS alS, a.airportID = r.destAirportID) ∧
      (∃ l ∈ airlines3 cs apS alS, l.airlineID = r.airlineID) := by
  intro r hr
  obtain ⟨-, h1, h2, h3⟩ := mem_sampleCountry.mp hr
  exact ⟨hasAirportRow_iff.mp h1, hasAirportRow_iff.mp h2, hasAirlineRow_iff.mp h3⟩

/-- A row whose country resolves carries the name of some raw country row. -/
theorem validCountryB_mem_cs {cs : List Country} {apS : List Airport}
    {alS : List Airline} {o : Option String} (h : validCountryB cs apS alS o = true) :
    ∃ c ∈ cs, c.name = o := by
  obtain ⟨c, hc, hce⟩ := validCountryB_iff.mp h
  exact ⟨c, (mem_countriesNarrow.mp hc).1, hce⟩

/-- A row whose country resolves has a non-null country. -/
theorem validCountryB_isSome {cs : List Country} {apS : List Airport}
    {alS : List Airline} {o : Option String} (h : validCountryB cs apS alS o = true) :
    o.isSome = true := by
  obtain ⟨c, hc, hce⟩ := validCountryB_iff.mp h
  have := (mem_countriesNarrow.mp hc).2.1
  rwa [hce] at this

/-! ## Concrete example tables used by the witnesses -/

/-- One raw route: airline 1, airports 100 → 200, equipment "738 320". -/
def exRoutesRaw : List RouteRaw :=
  [⟨none, .num 1, none, .num 100, none, .num 200, none, none, some " 738 320 "⟩]

/-- Raw airports 100 and 200, both in country "X". -/
def exAirportsRaw : List AirportRaw :=
  [⟨.num 100, none, none, some "X", none, none, none, none, none, none, none,
    none, none, none⟩,
   ⟨.num 200, none, none, some "X", none, none, none, none, none, none, none,
    none, none, none⟩]

/-- Raw airline 1 in country "X". -/
def exAirlinesRaw : List AirlineRaw :=
  [⟨.num 1, some "A", none, none, none, none, some "X", none⟩]

/-- A countries table containing "X" and an unused "Z". -/
def exCountries : List Country :=
  [⟨some "X", none, none⟩, ⟨some "Z", none, none⟩]

/-- A planes table with codes 738/B738 and AT7. -/
def exPlanes : List Plane :=
  [⟨some "Boeing", some "738", some "B738"⟩, ⟨some "Other", some "AT7", none⟩]

/-! ## Claim theorems -/

/-- C1: for every run that completes, the set of AirlineID values appearing
in the output Routes equals exactly the set of AirlineID keys of the output
Airlines, and the set of SourceAirportID/DestAirportID values appearing in
output Routes equals exactly the set of AirportID keys of the output
Airports — no orphans in either direction, in both the countries-supplied
and countries-absent branches. -/
theorem C1_referential_closure {rr : List RouteRaw} {ar : List AirportRaw}
    {lr : List AirlineRaw} {pl : Option (List Plane)} {co : Option (List Country)}
    {n : Int} {seed : Nat} {out : Output} (h : run rr ar lr pl co n seed = .ok out) :
    (∀ i : Int, (∃ r ∈ out.routes, r.airlineID = i) ↔
      (∃ a ∈ out.airlines, a.airlineID = i)) ∧
    (∀ i : Int, (∃ r ∈ out.routes, r.sourceAirportID = i ∨ r.destAirportID = i) ↔
      (∃ a ∈ out.airports, a.airportID = i)) := by
  cases co with
  | none =>
    obtain ⟨-, cleaned, sample, apC, -, -, -, hout⟩ := run_ok_none h
    subst hout
    constructor
    · intro i
      simpa [runNoCountries, mem_sortRows] using
        closure_noCountries_airline sample apC (airlinesClean lr) i
    · intro i
      simpa [runNoCountries, mem_sortRows] using
        closure_noCountries_airport sample apC (airlinesClean lr) i
  | some cs =>
    obtain ⟨cleaned, sample, apC, -, -, -, hout⟩ := run_ok_some h
    subst hout
    constructor
    · intro i
      simpa [runWithCountries, mem_sortRows] using
        closure_withCountries_airline cs (sampleNarrow sample apC (airlinesClean lr))
          (airportsSmall2 sample apC (airlinesClean lr))
          (airlinesSmall2 sample apC (airlinesClean lr)) (airlinesClean lr)
          (fun a ha => (mem_airlinesSmall2.mp ha).1) i
    · intro i
      simpa [runWithCountries, mem_sortRows] using
        closure_withCountries_airport cs (sampleNarrow sample apC (airlinesClean lr))
          (airportsSmall2 sample apC (airlinesClean lr))
          (airlinesSmall2 sample apC (airlinesClean lr)) apC
          (fun a ha => (mem_airportsSmall2.mp ha).1) i

/-- Witness for C1 on a concrete completing run (countries supplied). -/
theorem C1_referential_closure_witness :
    ∃ out, run exRoutesRaw exAirportsRaw exAirlinesRaw none (some exCountries) 5 7 =
        Except.ok out ∧
      ((∀ i : Int, (∃ r ∈ out.routes, r.airlineID = i) ↔
        (∃ a ∈ out.airlines, a.airlineID = i)) ∧
       (∀ i : Int, (∃ r ∈ out.routes, r.sourceAirportID = i ∨ r.destAirportID = i) ↔
        (∃ a ∈ out.airports, a.airportID = i))) := by
  obtain ⟨out, hout⟩ : ∃ out,
      run exRoutesRaw exAirportsRaw exAirlinesRaw none (some exCountries) 5 7 =
        Except.ok out := ⟨_, rfl⟩
  exact ⟨out, hout, C1_referential_closure hout⟩

/-- C2: when a countries table is supplied, every completed run satisfies:
every country name of an output airport/airline is the name of an output
country row; every output country row's name is used by at least one output
airport or airline; and an airport/airline row whose country name matches
no raw country row is dropped from the output, together with every output
route referencing its key (when no same-key row resolves). -/
theorem C2_country_consistency {rr : List RouteRaw} {ar : List AirportRaw}
    {lr : List AirlineRaw} {pl : Option (List Plane)} {cs : List Country}
    {n : Int} {seed : Nat} {out : Output}
    (h : run rr ar lr pl (some cs) n seed = .ok out) :
    (∃ csOut, out.countries = some csOut ∧
      (∀ a ∈ out.airports, ∃ c ∈ csOut, c.name = a.country) ∧
      (∀ l ∈ out.airlines, ∃ c ∈ csOut, c.name = l.country) ∧
      (∀ c ∈ csOut, (∃ a ∈ out.airports, a.country = c.name) ∨
                    (∃ l ∈ out.airlines, l.country = c.name))) ∧
    (∀ apC, airportsClean ar = .ok apC →
      (∀ a ∈ apC, (∀ c ∈ cs, c.name ≠ a.country) → a ∉ out.airports) ∧
      (∀ i : Int, (∀ a ∈ apC, a.airportID = i → ∀ c ∈ cs, c.name ≠ a.country) →
        ∀ r ∈ out.routes, r.sourceAirportID ≠ i ∧ r.destAirportID ≠ i)) ∧
    (∀ a ∈ airlinesClean lr, (∀ c ∈ cs, c.name ≠ a.country) → a ∉ out.airlines) ∧
    (∀ i : Int,
      (∀ a ∈ airlinesClean lr, a.airlineID = i → ∀ c ∈ cs, c.name ≠ a.country) →
      ∀ r ∈ out.routes, r.airlineID ≠ i) := by
  obtain ⟨cleaned, sample, apC0, hrc, hs, hac, hout⟩ := run_ok_some h
  subst hout
  simp only [runWithCountries, mem_sortRows]
  refine ⟨⟨_, rfl, ?_, ?_, ?_⟩, ?_, ?_, ?_⟩
  · intro a ha
    obtain ⟨c, hc, hce⟩ := airports4_country_final cs _ _ _ apC0 (airlinesClean lr) a ha
    exact ⟨c, hc, hce⟩
  · intro l hl
    obtain ⟨c, hc, hce⟩ := airlines4_country_final cs _ _ _ apC0 (airlinesClean lr) l hl
    exact ⟨c, hc, hce⟩
  · intro c hc
    rcases (mem_countriesOutFinal.mp hc).2.2 with ⟨a, ha, hae⟩ | ⟨l, hl, hle⟩
    · exact Or.inl ⟨a, ha, hae⟩
    · exact Or.inr ⟨l, hl, hle⟩
  · intro apC hapC
    have hap : apC = apC0 := Except.ok.inj (hapC.symm.trans hac)
    subst hap
    constructor
    · intro a ha hno hmem
      obtain ⟨-, -, hvalid⟩ := mem_airports4.mp hmem
      obtain ⟨c, hccs, hce⟩ := validCountryB_mem_cs hvalid
      exact hno c hccs hce
    · intro i hno r hr
      obtain ⟨⟨a1, ha1, he1⟩, ⟨a2, ha2, he2⟩, -⟩ := sampleCountry_resolves cs _ _ _ r hr
      obtain ⟨ha1S, hv1⟩ := mem_airports3.mp ha1
      obtain ⟨ha2S, hv2⟩ := mem_airports3.mp ha2
      have ha1C : a1 ∈ apC := (mem_airportsSmall2.mp ha1S).1
      have ha2C : a2 ∈ apC := (mem_airportsSmall2.mp ha2S).1
      constructor
      · intro hi
        obtain ⟨c, hccs, hce⟩ := validCountryB_mem_cs hv1
        exact hno a1 ha1C (by omega) c hccs hce
      · intro hi
        obtain ⟨c, hccs, hce⟩ := validCountryB_mem_cs hv2
        exact hno a2 ha2C (by omega) c hccs hce
  · intro a ha hno hmem
    obtain ⟨-, -, hvalid⟩ := mem_airlines4.mp hmem
    obtain ⟨c, hccs, hce⟩ := validCountryB_mem_cs hvalid
    exact hno c hccs hce
  · intro i hno r hr
    obtain ⟨-, -, ⟨l, hl, hle⟩⟩ := sampleCountry_resolves cs _ _ _ r hr
    obtain ⟨hlS, hvl⟩ := mem_airlines3.mp hl
    have hlC : l ∈ airlinesClean lr := (mem_airlinesSmall2.mp hlS).1
    intro hi
    obtain ⟨c, hccs, hce⟩ := validCountryB_mem_cs hvl
    exact hno l hlC (by omega) c hccs hce

/-- Witness for C2 on a concrete completing run with countries supplied. -/
theorem C2_country_consistency_witness :
    ∃ out, run exRoutesRaw exAirportsRaw exAirlinesRaw none (some exCountries) 5 7 =
        Except.ok out ∧
      ∃ csOut, out.countries = some csOut ∧
        (∀ a ∈ out.airports, ∃ c ∈ csOut, c.name = a.country) := by
  obtain ⟨out, hout⟩ : ∃ out,
      run exRoutesRaw exAirportsRaw exAirlinesRaw none (some exCountries) 5 7 =
        Except.ok out := ⟨_, rfl⟩
  obtain ⟨⟨csOut, hcs, hcover, -, -⟩, -, -, -⟩ := C2_country_consistency hout
  exact ⟨out, hout, csOut, hcs, hcover⟩

/-- C9: with countries supplied, a null-country airport or airline row is
excluded from the output; an airport id all of whose coerced rows have a
null country is referenced by no output route, and likewise no output route
carries an airline id all of whose coerced rows have a null country; and
the country pass only tightens the route/airport/airline outputs relative
to the countries-absent run on the same inputs. -/
theorem C9_null_country_excluded {rr : List RouteRaw} {ar : List AirportRaw}
    {lr : List AirlineRaw} {pl : Option (List Plane)} {cs : List Country}
    {n : Int} {seed : Nat} {out : Output}
    (h : run rr ar lr pl (some cs) n seed = .ok out) :
    (∀ a ∈ out.airports, a.country.isSome = true) ∧
    (∀ l ∈ out.airlines, l.country.isSome = true) ∧
    (∀ apC, airportsClean ar = .ok apC →
      ∀ i : Int, (∀ a ∈ apC, a.airportID = i → a.country = none) →
        ∀ r ∈ out.routes, r.sourceAirportID ≠ i ∧ r.destAirportID ≠ i) ∧
    (∀ i : Int, (∀ a ∈ airlinesClean lr, a.airlineID = i → a.country = none) →
      ∀ r ∈ out.routes, r.airlineID ≠ i) ∧
    (∀ pl' out', run rr ar lr pl' none n seed = .ok out' →
      (∀ r ∈ out.routes, r ∈ out'.routes) ∧
      (∀ a ∈ out.airports, a ∈ out'.airports) ∧
      (∀ l ∈ out.airlines, l ∈ out'.airlines)) := by
  obtain ⟨cleaned, sample, apC0, hrc, hs, hac, hout⟩ := run_ok_some h
  subst hout
  simp only [runWithCountries, mem_sortRows]
  refine ⟨?_, ?_, ?_, ?_, ?_⟩
  · intro a ha
    exact validCountryB_isSome (mem_airports4.mp ha).2.2
  · intro l hl
    exact validCountryB_isSome (mem_airlines4.mp hl).2.2
  · intro apC hapC i hnull r hr
    have hap : apC = apC0 := Except.ok.inj (hapC.symm.trans hac)
    subst hap
    obtain ⟨⟨a1, ha1, he1⟩, ⟨a2, ha2, he2⟩, -⟩ := sampleCountry_resolves cs _ _ _ r hr
    obtain ⟨ha1S, hv1⟩ := mem_airports3.mp ha1
    obtain ⟨ha2S, hv2⟩ := mem_airports3.mp ha2
    constructor
    · intro hi
      have hn := hnull a1 (mem_airportsSmall2.mp ha1S).1 (by omega)
      have h2 := validCountryB_isSome hv1
      rw [hn] at h2
      exact nomatch h2
    · intro hi
      have hn := hnull a2 (mem_airportsSmall2.mp ha2S).1 (by omega)
      have h2 := validCountryB_isSome hv2
      rw [hn] at h2
      exact nomatch h2
  · intro i hnull r hr hi
    obtain ⟨-, -, ⟨l, hl, hle⟩⟩ := sampleCountry_resolves cs _ _ _ r hr
    obtain ⟨hlS, hvl⟩ := mem_airlines3.mp hl
    have hn := hnull l (mem_airlinesSmall2.mp hlS).1 (by omega)
    have h2 := validCountryB_isSome hvl
    rw [hn] at h2
    exact nomatch h2
  · intro pl' out' h'
    obtain ⟨hpl', cleaned', sample', apC', hrc', hs', hac', hout'⟩ := run_ok_none h'
    have hc : cleaned' = cleaned := Except.ok.inj (hrc'.symm.trans hrc)
    subst hc
    have hsm : sample' = sample := Except.ok.inj (hs'.symm.trans hs)
    subst hsm
    have hapc : apC' = apC0 := Except.ok.inj (hac'.symm.trans hac)
    subst hapc
    subst hout'
    simp only [runNoCountries, mem_sortRows]
    refine ⟨?_, ?_, ?_⟩
    · intro r hr
      exact (mem_sampleCountry.mp hr).1
    · intro a ha
      obtain ⟨haC, hused, -⟩ := mem_airports4.mp ha
      exact mem_airportsSmall2.mpr
        ⟨haC, usesAirportId_mono (fun r hr => (mem_sampleCountry.mp hr).1) hused⟩
    · intro l hl
      obtain ⟨hlC, hused, -⟩ := mem_airlines4.mp hl
      exact mem_airlinesSmall2.mpr
        ⟨hlC, usesAirlineId_mono (fun r hr => (mem_sampleCountry.mp hr).1) hused⟩

/-- Witness for C9 on a concrete run with countries supplied, compared with
the countries-absent run on the same inputs. -/
theorem C9_null_country_excluded_witness :
    ∃ out out', run exRoutesRaw exAirportsRaw exAirlinesRaw none (some exCountries) 5 7 =
        Except.ok out ∧
      run exRoutesRaw exAirportsRaw exAirlinesRaw none none 5 7 = Except.ok out' ∧
      (∀ a ∈ out.airports, a.country.isSome = true) ∧
      (∀ r ∈ out.routes, r ∈ out'.routes) := by
  obtain ⟨out, hout⟩ : ∃ out,
      run exRoutesRaw exAirportsRaw exAirlinesRaw none (some exCountries) 5 7 =
        Except.ok out := ⟨_, rfl⟩
  obtain ⟨out', hout'⟩ : ∃ out',
      run exRoutesRaw exAirportsRaw exAirlinesRaw none none 5 7 =
        Except.ok out' := ⟨_, rfl⟩
  obtain ⟨hsome, -, -, -, hsub⟩ := C9_null_country_excluded hout
  exact ⟨out, out', hout, hout', hsome, (hsub none out' hout').1⟩

/-- Membership in the equipment tokens is invariant under the output sort. -/
theorem mem_equipTokens_sortRows {le : Route → Route → Bool} {srs : List Route}
    {t : String} : t ∈ equipTokens (sortRows le srs) ↔ t ∈ equipTokens srs := by
  rw [mem_equipTokens, mem_equipTokens]
  constructor
  · rintro ⟨r, hr, hx⟩
    exact ⟨r, (mem_sortRows le r srs).mp hr, hx⟩
  · rintro ⟨r, hr, hx⟩
    exact ⟨r, (mem_sortRows le r srs).mpr hr, hx⟩

/-- C3: when a planes table is supplied, the output planes of a completed
run are exactly the plane rows whose IATA or ICAO code is among the
whitespace-split, trimmed, upper-cased equipment tokens of the output
routes; and the route/airport/airline/countries outputs are the same for
every possible planes table. -/
theorem C3_planes_derived {rr : List RouteRaw} {ar : List AirportRaw}
    {lr : List AirlineRaw} {ps : List Plane} {co : Option (List Country)}
    {n : Int} {seed : Nat} {out : Output}
    (h : run rr ar lr (some ps) co n seed = .ok out) :
    (∃ psOut, out.planes = some psOut ∧
      ∀ p, p ∈ psOut ↔ p ∈ ps ∧
        ((∃ s, p.iata = some s ∧ s ∈ equipTokens out.routes) ∨
         (∃ s, p.icao = some s ∧ s ∈ equipTokens out.routes))) ∧
    (∀ ps' out', run rr ar lr (some ps') co n seed = .ok out' →
      out'.routes = out.routes ∧ out'.airports = out.airports ∧
      out'.airlines = out.airlines ∧ out'.countries = out.countries) := by
  cases co with
  | none =>
    obtain ⟨hpl, -⟩ := run_ok_none h
    exact nomatch hpl
  | some cs =>
    obtain ⟨cleaned, sample, apC0, hrc, hs, hac, hout⟩ := run_ok_some h
    subst hout
    constructor
    · refine ⟨_, rfl, ?_⟩
      intro p
      simp only [runWithCountries, mem_sortRows, mem_planesNarrow,
        mem_equipTokens_sortRows]
    · intro ps' out' h'
      obtain ⟨cleaned', sample', apC', hrc', hs', hac', hout'⟩ := run_ok_some h'
      have hc : cleaned' = cleaned := Except.ok.inj (hrc'.symm.trans hrc)
      subst hc
      have hsm : sample' = sample := Except.ok.inj (hs'.symm.trans hs)
      subst hsm
      have hapc : apC' = apC0 := Except.ok.inj (hac'.symm.trans hac)
      subst hapc
      subst hout'
      exact ⟨rfl, rfl, rfl, rfl⟩

/-- Witness for C3 on a concrete run with planes and countries supplied. -/
theorem C3_planes_derived_witness :
    ∃ out, run exRoutesRaw exAirportsRaw exAirlinesRaw (some exPlanes)
        (some exCountries) 5 7 = Except.ok out ∧
      ∃ psOut, out.planes = some psOut ∧
        ∀ p, p ∈ psOut ↔ p ∈ exPlanes ∧
          ((∃ s, p.iata = some s ∧ s ∈ equipTokens out.routes) ∨
           (∃ s, p.icao = some s ∧ s ∈ equipTokens out.routes)) := by
  obtain ⟨out, hout⟩ : ∃ out,
      run exRoutesRaw exAirportsRaw exAirlinesRaw (some exPlanes)
        (some exCountries) 5 7 = Except.ok out := ⟨_, rfl⟩
  exact ⟨out, hout, (C3_planes_derived hout).1⟩

/-- C5 (code-bug evidence): with a planes table supplied and no countries
table, the run raises TypeError at the summary print of line 192
(`len(countries_small_out)` with `countries_small_out = None`) before any
output is written — although each table alone is advertised as optional:
the same inputs succeed with planes absent, and with countries supplied. -/
theorem C5_planes_without_countries_error :
    run exRoutesRaw exAirportsRaw exAirlinesRaw (some exPlanes) none 5 7 =
      Except.error "TypeError: object of type NoneType has no len()" ∧
    (∃ out, run exRoutesRaw exAirportsRaw exAirlinesRaw none none 5 7 =
      Except.ok out) ∧
    (∃ out, run exRoutesRaw exAirportsRaw exAirlinesRaw (some exPlanes)
      (some exCountries) 5 7 = Except.ok out) :=
  ⟨rfl, ⟨_, rfl⟩, ⟨_, rfl⟩⟩

/-- C4 counterexample: a route row whose SourceAirportID is non-null but
not parseable as a number is not silently dropped — `astype(int)` raises
and the whole run aborts. -/
theorem C4_unparseable_fatal_counterexample :
    run [⟨none, .num 1, none, .text "ABC", none, .num 2, none, none, none⟩]
      [] [] none none 350 42 =
      Except.error "ValueError: invalid literal for int() in SourceAirportID" :=
  rfl

/-- Route coercion raises exactly when some row with non-null source and
destination ids has an unparseable one. -/
theorem routesClean_error_iff {rows : List RouteRaw} :
    (∃ e, routesClean rows = .error e) ↔
      ∃ r ∈ rows, (r.sourceAirportID.isNull = false ∧ r.destAirportID.isNull = false) ∧
        (r.sourceAirportID.isText = true ∨ r.destAirportID.isText = true) := by
  simp only [routesClean]
  split
  · rename_i h1
    rw [List.any_eq_true] at h1
    obtain ⟨r, hr, ht⟩ := h1
    obtain ⟨hrr, hp⟩ := List.mem_filter.mp hr
    rw [Bool.and_eq_true, Bool.not_eq_true', Bool.not_eq_true'] at hp
    exact ⟨fun _ => ⟨r, hrr, hp, Or.inl ht⟩, fun _ => ⟨_, rfl⟩⟩
  · rename_i h1
    rw [Bool.not_eq_true, List.any_eq_false] at h1
    split
    · rename_i h2
      rw [List.any_eq_true] at h2
      obtain ⟨r, hr, ht⟩ := h2
      obtain ⟨hrr, hp⟩ := List.mem_filter.mp hr
      rw [Bool.and_eq_true, Bool.not_eq_true', Bool.not_eq_true'] at hp
      exact ⟨fun _ => ⟨r, hrr, hp, Or.inr ht⟩, fun _ => ⟨_, rfl⟩⟩
    · rename_i h2
      rw [Bool.not_eq_true, List.any_eq_false] at h2
      constructor
      · rintro ⟨e, he⟩
        exact nomatch he
      · rintro ⟨r, hr, ⟨hs, hd⟩, hor⟩
        exfalso
        have hm : r ∈ rows.filter fun r =>
            !r.sourceAirportID.isNull && !r.destAirportID.isNull :=
          List.mem_filter.mpr ⟨hr, by rw [Bool.and_eq_true,
            Bool.not_eq_true', Bool.not_eq_true']; exact ⟨hs, hd⟩⟩
        cases hor with
        | inl h => exact h1 r hm h
        | inr h => exact h2 r hm h

/-- Airport coercion raises exactly when some row has a non-null
unparseable AirportID. -/
theorem airportsClean_error_iff {rows : List AirportRaw} :
    (∃ e, airportsClean rows = .error e) ↔
      ∃ a ∈ rows, a.airportID.isNull = false ∧ a.airportID.isText = true := by
  simp only [airportsClean]
  split
  · rename_i h1
    rw [List.any_eq_true] at h1
    obtain ⟨a, ha, ht⟩ := h1
    obtain ⟨har, hp⟩ := List.mem_filter.mp ha
    rw [Bool.not_eq_true'] at hp
    exact ⟨fun _ => ⟨a, har, hp, ht⟩, fun _ => ⟨_, rfl⟩⟩
  · rename_i h1
    rw [Bool.not_eq_true, List.any_eq_false] at h1
    constructor
    · rintro ⟨e, he⟩
      exact nomatch he
    · rintro ⟨a, ha, hs, ht⟩
      exfalso
      have hm : a ∈ rows.filter fun a => !a.airportID.isNull :=
        List.mem_filter.mpr ⟨ha, by rw [Bool.not_eq_true']; exact hs⟩
      exact h1 a hm ht

/-- When route coercion completes, its result contains exactly the
convertible rows: null or unparseable AirlineID rows are silently dropped. -/
theorem routesClean_ok_mem {rows : List RouteRaw} {cl : List Route}
    (h : routesClean rows = .ok cl) :
    ∀ x, x ∈ cl ↔ ∃ r ∈ rows, toRoute r = some x := by
  simp only [routesClean] at h
  split at h
  · exact nomatch h
  split at h
  · exact nomatch h
  obtain rfl := (Except.ok.inj h).symm
  intro x
  rw [List.mem_filterMap]
  constructor
  · rintro ⟨r, hr, he⟩
    exact ⟨r, (List.mem_filter.mp hr).1, he⟩
  · rintro ⟨r, hr, he⟩
    refine ⟨r, List.mem_filter.mpr ⟨hr, ?_⟩, he⟩
    rcases r with ⟨al, aid, sa, sid, da, did, c, st, eq⟩
    cases aid <;> cases sid <;> cases did <;>
      simp_all [toRoute, RawCell.isNull]

/-- Airline coercion is total and keeps exactly the convertible rows. -/
theorem airlinesClean_mem {rows : List AirlineRaw} {x : Airline} :
    x ∈ airlinesClean rows ↔ ∃ r ∈ rows, toAirline r = some x := by
  simp only [airlinesClean, List.mem_filterMap]

/-- C4 amended: rows with a null key field are silently dropped in every
table, and a row with a non-null unparseable AirlineID is silently dropped
(routes and airlines use `to_numeric(errors=coerce)`); but a non-null
unparseable SourceAirportID, DestAirportID or AirportID aborts the run with
a ValueError (`astype(int)`), and an input that is empty after coercion is
still a valid result. -/
theorem C4_coercion_amended :
    (∀ rows : List RouteRaw, (∃ e, routesClean rows = .error e) ↔
      ∃ r ∈ rows, (r.sourceAirportID.isNull = false ∧ r.destAirportID.isNull = false) ∧
        (r.sourceAirportID.isText = true ∨ r.destAirportID.isText = true)) ∧
    (∀ rows : List AirportRaw, (∃ e, airportsClean rows = .error e) ↔
      ∃ a ∈ rows, a.airportID.isNull = false ∧ a.airportID.isText = true) ∧
    (∀ (rows : List AirlineRaw) (x : Airline),
      x ∈ airlinesClean rows ↔ ∃ r ∈ rows, toAirline r = some x) ∧
    (∀ (rows : List RouteRaw) (cl : List Route), routesClean rows = .ok cl →
      ∀ x, x ∈ cl ↔ ∃ r ∈ rows, toRoute r = some x) ∧
    run [] [] [] none none 350 42 = Except.ok ⟨[], [], [], none, none⟩ :=
  ⟨fun _ => routesClean_error_iff, fun _ => airportsClean_error_iff,
   fun _ _ => airlinesClean_mem, fun _ _ h => routesClean_ok_mem h, rfl⟩

/-- Witness for the amended C4 at concrete inputs: an unparseable
AirlineID row is silently dropped while the run completes, and an
unparseable AirportID makes airport coercion raise. -/
theorem C4_coercion_amended_witness :
    (∃ e, routesClean [⟨none, .num 1, none, .text "ABC", none, .num 2,
      none, none, none⟩] = .error e) ∧
    (∃ e, airportsClean [⟨.text "QQ", none, none, none, none, none, none, none,
      none, none, none, none, none, none⟩] = .error e) ∧
    (∀ x : Route, x ∈ [] ↔
      ∃ r ∈ [(⟨none, .text "oops", none, .num 1, none, .num 2, none, none,
        none⟩ : RouteRaw)], toRoute r = some x) := by
  refine ⟨(C4_coercion_amended.1 _).mpr ?_, (C4_coercion_amended.2.1 _).mpr ?_, ?_⟩
  · exact ⟨⟨none, .num 1, none, .text "ABC", none, .num 2, none, none, none⟩,
      by decide, by decide, Or.inl (by decide)⟩
  · exact ⟨⟨.text "QQ", none, none, none, none, none, none, none, none, none,
      none, none, none, none⟩, by decide, by decide, by decide⟩
  · exact C4_coercion_amended.2.2.2.1 _ [] rfl

/-- A successful sample has size `min n (cleaned size)`, and that quantity
is non-negative. -/
theorem sampleRoutesExc_ok_length {cl : List Route} {n : Int} {seed : Nat}
    {s : List Route} (h : sampleRoutesExc cl n seed = .ok s) :
    0 ≤ min n (cl.length : Int) ∧ (s.length : Int) = min n (cl.length : Int) := by
  simp only [sampleRoutesExc] at h
  split at h
  · exact nomatch h
  · rename_i hge
    obtain rfl := (Except.ok.inj h).symm
    refine ⟨by omega, ?_⟩
    rw [sampleAux_length]
    omega

/-- C6: the sampler fails exactly when the requested count is negative, in
which case the whole run errors (before any output exists); for any
non-negative count it succeeds with `min n (cleaned size)` rows drawn
without replacement (no row is used more often than it occurs). -/
theorem C6_sampler :
    (∀ (cl : List Route) (n : Int) (seed : Nat),
      (∃ e, sampleRoutesExc cl n seed = .error e) ↔ n < 0) ∧
    (∀ (rr : List RouteRaw) (ar : List AirportRaw) (lr : List AirlineRaw)
      (pl : Option (List Plane)) (co : Option (List Country)) (n : Int) (seed : Nat),
      n < 0 → ∃ e, run rr ar lr pl co n seed = .error e) ∧
    (∀ (cl : List Route) (n : Int) (seed : Nat), 0 ≤ n →
      ∃ s, sampleRoutesExc cl n seed = .ok s ∧
        (s.length : Int) = min n (cl.length : Int) ∧
        ∀ x : Route, s.count x ≤ cl.count x) := by
  refine ⟨?_, ?_, ?_⟩
  · intro cl n seed
    simp only [sampleRoutesExc]
    split
    · rename_i hlt
      exact ⟨fun _ => by omega, fun _ => ⟨_, rfl⟩⟩
    · rename_i hge
      constructor
      · rintro ⟨e, he⟩
        exact nomatch he
      · intro hn
        exact absurd (by omega : min n (cl.length : Int) < 0) hge
  · intro rr ar lr pl co n seed hn
    unfold run
    cases hrc : routesClean rr with
    | error e => exact ⟨e, rfl⟩
    | ok cleaned =>
      have hs : sampleRoutesExc cleaned n seed =
          .error "ValueError: A negative number of rows requested. Please provide n >= 0." := by
        simp only [sampleRoutesExc]
        rw [if_pos (by omega : min n (cleaned.length : Int) < 0)]
      refine ⟨"ValueError: A negative number of rows requested. Please provide n >= 0.", ?_⟩
      simp only [except_bind_ok, hs, except_bind_error]
  · intro cl n seed hn
    refine ⟨sampleAux seed (min n (cl.length : Int)).toNat cl, ?_, ?_, ?_⟩
    · simp only [sampleRoutesExc]
      rw [if_neg (by omega : ¬ min n (cl.length : Int) < 0)]
    · rw [sampleAux_length]
      omega
    · intro x
      exact (sampleAux_subperm seed _ cl).count_le x

/-- Witness for C6: a negative count errors on concrete inputs; a
non-negative count on a concrete cleaned table succeeds with the clamped
size. -/
theorem C6_sampler_witness :
    (∃ e, run exRoutesRaw exAirportsRaw exAirlinesRaw none none (-1) 42 =
      Except.error e) ∧
    (∃ s, sampleRoutesExc [] 5 42 = .ok s ∧
      (s.length : Int) = min 5 (([] : List Route).length : Int) ∧
      ∀ x : Route, s.count x ≤ ([] : List Route).count x) :=
  ⟨C6_sampler.2.1 exRoutesRaw exAirportsRaw exAirlinesRaw none none (-1) 42
    (by decide),
   C6_sampler.2.2 [] 5 42 (by decide)⟩

/-- C7: the pipeline is deterministic — identical input tables, sample
size, and seed give identical results, including every output table's final
order. -/
theorem C7_determinism (rr₁ rr₂ : List RouteRaw) (ar₁ ar₂ : List AirportRaw)
    (lr₁ lr₂ : List AirlineRaw) (pl₁ pl₂ : Option (List Plane))
    (co₁ co₂ : Option (List Country)) (n₁ n₂ : Int) (seed₁ seed₂ : Nat)
    (h1 : rr₁ = rr₂) (h2 : ar₁ = ar₂) (h3 : lr₁ = lr₂) (h4 : pl₁ = pl₂)
    (h5 : co₁ = co₂) (h6 : n₁ = n₂) (h7 : seed₁ = seed₂) :
    run rr₁ ar₁ lr₁ pl₁ co₁ n₁ seed₁ = run rr₂ ar₂ lr₂ pl₂ co₂ n₂ seed₂ := by
  subst h1; subst h2; subst h3; subst h4; subst h5; subst h6; subst h7
  rfl

/-- Witness for C7 at a concrete input. -/
theorem C7_determinism_witness :
    run exRoutesRaw exAirportsRaw exAirlinesRaw (some exPlanes) (some exCountries)
      5 7 =
    run exRoutesRaw exAirportsRaw exAirlinesRaw (some exPlanes) (some exCountries)
      5 7 :=
  C7_determinism _ _ _ _ _ _ _ _ _ _ _ _ _ _ rfl rfl rfl rfl rfl rfl rfl

/-- C8 counterexample: two raw airline rows sharing AirlineID 1 (differing
in Name) both survive into the output — `isin` filtering never collapses
duplicate keys, so the output Airlines table has two rows with the same
primary key. -/
theorem C8_duplicate_keys_counterexample :
    run [⟨none, .num 1, none, .num 100, none, .num 100, none, none, none⟩]
        [⟨.num 100, none, none, none, none, none, none, none, none, none, none,
          none, none, none⟩]
        [⟨.num 1, some "A", none, none, none, none, none, none⟩,
         ⟨.num 1, some "B", none, none, none, none, none, none⟩]
        none none 5 0 =
      Except.ok ⟨[⟨none, 1, none, 100, none, 100, none, none, none⟩],
        [⟨100, none, none, none, none, none, none, none, none, none, none,
          none, none, none⟩],
        [⟨1, some "A", none, none, none, none, none, none⟩,
         ⟨1, some "B", none, none, none, none, none, none⟩], none, none⟩ ∧
    ¬ List.Pairwise (fun a b : Airline => a.airlineID ≠ b.airlineID)
        [⟨1, some "A", none, none, none, none, none, none⟩,
         ⟨1, some "B", none, none, none, none, none, none⟩] :=
  ⟨rfl, by decide⟩

/-- Key-uniqueness is preserved through a sorted filter of the base table. -/
theorem pairwise_sortRows_filter {α : Type} {R : α → α → Prop}
    (hsym : ∀ {x y : α}, R x y → R y x) (le : α → α → Bool) (p : α → Bool)
    {l : List α} (h : l.Pairwise R) : (sortRows le (l.filter p)).Pairwise R :=
  (List.Perm.pairwise_iff (fun hxy => hsym hxy) (perm_sortRows le _)).mpr
    (List.Pairwise.sublist (List.filter_sublist l) h)

/-- C8 amended: output keys are unique whenever the coerced input tables
have unique keys; duplicate-key raw rows are NOT collapsed by the
set-membership filtering (see the counterexample), so uniqueness of the
output keys holds only conditionally on input uniqueness. -/
theorem C8_unique_keys_amended {rr : List RouteRaw} {ar : List AirportRaw}
    {lr : List AirlineRaw} {pl : Option (List Plane)} {co : Option (List Country)}
    {n : Int} {seed : Nat} {out : Output} (h : run rr ar lr pl co n seed = .ok out) :
    (∀ apC, airportsClean ar = .ok apC →
      apC.Pairwise (fun a b => a.airportID ≠ b.airportID) →
      out.airports.Pairwise (fun a b => a.airportID ≠ b.airportID)) ∧
    ((airlinesClean lr).Pairwise (fun a b => a.airlineID ≠ b.airlineID) →
      out.airlines.Pairwise (fun a b => a.airlineID ≠ b.airlineID)) ∧
    (∀ cs csOut, co = some cs → out.countries = some csOut →
      cs.Pairwise (fun c d => c.name ≠ d.name) →
      csOut.Pairwise (fun c d => c.name ≠ d.name)) := by
  cases co with
  | none =>
    obtain ⟨-, cleaned, sample, apC0, hrc, hs, hac, hout⟩ := run_ok_none h
    subst hout
    refine ⟨?_, ?_, ?_⟩
    · intro apC hapC hpw
      have hap : apC = apC0 := Except.ok.inj (hapC.symm.trans hac)
      subst hap
      exact pairwise_sortRows_filter (fun hxy => fun he => hxy he.symm) _ _ hpw
    · intro hpw
      exact pairwise_sortRows_filter (fun hxy => fun he => hxy he.symm) _ _ hpw
    · intro cs csOut hcs
      exact nomatch hcs
  | some cs0 =>
    obtain ⟨cleaned, sample, apC0, hrc, hs, hac, hout⟩ := run_ok_some h
    subst hout
    refine ⟨?_, ?_, ?_⟩
    · intro apC hapC hpw
      have hap : apC = apC0 := Except.ok.inj (hapC.symm.trans hac)
      subst hap
      exact pairwise_sortRows_filter (fun hxy => fun he => hxy he.symm) _ _ hpw
    · intro hpw
      exact pairwise_sortRows_filter (fun hxy => fun he => hxy he.symm) _ _ hpw
    · intro cs csOut hcs hcsOut hpw
      obtain rfl := (Option.some.inj hcs).symm
      obtain rfl := (Option.some.inj hcsOut).symm
      exact pairwise_sortRows_filter (fun hxy => fun he => hxy he.symm) _ _ hpw

/-- Witness for the amended C8: unique-key concrete inputs give unique-key
outputs. -/
theorem C8_unique_keys_amended_witness :
    ∃ out, run exRoutesRaw exAirportsRaw exAirlinesRaw none none 5 7 =
        Except.ok out ∧
      out.airports.Pairwise (fun a b => a.airportID ≠ b.airportID) := by
  obtain ⟨out, hout⟩ : ∃ out,
      run exRoutesRaw exAirportsRaw exAirlinesRaw none none 5 7 =
        Except.ok out := ⟨_, rfl⟩
  exact ⟨out, hout, (C8_unique_keys_amended hout).1 _ rfl (by decide)⟩

/-- C10: the output route count never exceeds `min n (cleaned size)`, and
it can be strictly smaller even when the cleaned table has at least `n`
rows: on the concrete input below one route is sampled (n = 1, cleaned
size 1) and then dropped by referential narrowing, and nothing is
re-sampled. -/
theorem C10_route_count :
    (∀ (rr : List RouteRaw) (ar : List AirportRaw) (lr : List AirlineRaw)
      (pl : Option (List Plane)) (co : Option (List Country)) (n : Int)
      (seed : Nat) (out : Output) (cl : List Route),
      run rr ar lr pl co n seed = .ok out → routesClean rr = .ok cl →
      (out.routes.length : Int) ≤ min n (cl.length : Int)) ∧
    (∃ out cl,
      run [⟨none, .num 999, none, .num 100, none, .num 200, none, none, none⟩]
        [⟨.num 100, none, none, none, none, none, none, none, none, none, none,
          none, none, none⟩,
         ⟨.num 200, none, none, none, none, none, none, none, none, none, none,
          none, none, none⟩]
        [] none none 1 42 = Except.ok out ∧
      routesClean [⟨none, .num 999, none, .num 100, none, .num 200, none, none,
        none⟩] = .ok cl ∧
      out.routes.length = 0 ∧ cl.length = 1) := by
  constructor
  · intro rr ar lr pl co n seed out cl hrun hcl
    cases co with
    | none =>
      obtain ⟨-, cleaned, sample, apC, hrc, hs, -, hout⟩ := run_ok_none hrun
      obtain rfl : cl = cleaned := Except.ok.inj (hcl.symm.trans hrc)
      subst hout
      obtain ⟨hk, hlen⟩ := sampleRoutesExc_ok_length hs
      simp only [runNoCountries]
      rw [length_sortRows]
      have h1 : (sampleNarrow sample apC (airlinesClean lr)).length ≤ sample.length :=
        (sampleNarrow_sublist _ _ _).length_le
      omega
    | some cs =>
      obtain ⟨cleaned, sample, apC, hrc, hs, -, hout⟩ := run_ok_some hrun
      obtain rfl : cl = cleaned := Except.ok.inj (hcl.symm.trans hrc)
      subst hout
      obtain ⟨hk, hlen⟩ := sampleRoutesExc_ok_length hs
      simp only [runWithCountries]
      rw [length_sortRows]
      have h1 : (sampleNarrow sample apC (airlinesClean lr)).length ≤ sample.length :=
        (sampleNarrow_sublist _ _ _).length_le
      have h2 : (sampleCountry cs (sampleNarrow sample apC (airlinesClean lr))
          (airportsSmall2 sample apC (airlinesClean lr))
          (airlinesSmall2 sample apC (airlinesClean lr))).length ≤
          (sampleNarrow sample apC (airlinesClean lr)).length :=
        List.length_filter_le _ _
      omega
  · exact ⟨_, _, rfl, rfl, rfl, rfl⟩

/-- Witness for the universal bound of C10 at a concrete input. -/
theorem C10_route_count_witness :
    ∃ out cl, run exRoutesRaw exAirportsRaw exAirlinesRaw none none 5 7 =
        Except.ok out ∧
      routesClean exRoutesRaw = .ok cl ∧
      (out.routes.length : Int) ≤ min 5 (cl.length : Int) := by
  obtain ⟨out, hout⟩ : ∃ out,
      run exRoutesRaw exAirportsRaw exAirlinesRaw none none 5 7 =
        Except.ok out := ⟨_, rfl⟩
  obtain ⟨cl, hcl⟩ : ∃ cl, routesClean exRoutesRaw = .ok cl := ⟨_, rfl⟩
  exact ⟨out, cl, hout, hcl,
    C10_route_count.1 _ _ _ _ _ _ _ _ _ hout hcl⟩

end CleanDatasets
